import Mathlib

/-! PolyFit / FaceReconstruction: the driver `main`.

A shallow embedding of `src/code/FaceReconstruction/main.cpp`.

* `F32` models the `float` values main computes with: IEEE 754 binary32,
  every finite value being an integer multiple of `2^-149`.
* `Env` collects the collaborators main calls whose code is outside this
  file (`std::stof`, `PointSetIO::read`, `HypothesisGenerator`,
  `FaceSelection`, `MapIO::save`); they are parameters of the embedding.
* `main` returns the run: the ordered list of observable events and the way
  the program ended.
-/

set_option maxRecDepth 10000

namespace PolyFit

/-! ## Single-precision values -/

/-- A binary32 value. `finite n` is the number `n * 2^-149`: every finite
binary32 number (normal or subnormal) is such a multiple. The sign of zero is
not tracked: main only adds the values and compares the sum with `1.0`. -/
inductive F32 where
  | finite (n : Int)
  | inf (neg : Bool)
  | nan
deriving DecidableEq, Repr

namespace F32

/-- The value `1.0f`, that is `2^149` units of `2^-149`. -/
def one : F32 := finite (2 ^ 149)

/-- Round the quotient `a / d` to the nearest natural number, ties to even. -/
def roundNearestEven (a d : Nat) : Nat :=
  let q := a / d
  let r := a % d
  if 2 * r < d then q
  else if 2 * r = d then (if q % 2 = 0 then q else q + 1)
  else q + 1

/-- Halve `fl` until it is below `2^24`, counting the halvings (at most
`fuel` of them): the number of low bits dropped when a magnitude whose
integer part is `fl` (in units of `2^-149`) is rounded to a 24-bit
significand. Below `2^24` units (subnormals and the lowest binade) every
integer is representable. -/
def dropBitsAux : Nat → Nat → Nat
  | 0, _ => 0
  | fuel + 1, fl => if fl < 2 ^ 24 then 0 else dropBitsAux fuel (fl / 2) + 1

/-- See `dropBitsAux`; `fl` halvings always suffice. -/
def dropBits (fl : Nat) : Nat := dropBitsAux fl fl

/-- The magnitude `a / b` (in units of `2^-149`) rounded to the nearest value
with a 24-bit significand, ties to even, with unbounded exponent. -/
def roundMag (a b : Nat) : Nat :=
  let s := dropBits (a / b)
  roundNearestEven a (b * 2 ^ s) * 2 ^ s

/-- The binary32 nearest to `± a / b` units (round to nearest, ties to even);
a rounded magnitude of `2^128` or more (`2^277` units) overflows to
infinity. -/
def ofQuot (neg : Bool) (a b : Nat) : F32 :=
  let m := roundMag a b
  if m < 2 ^ 128 * 2 ^ 149 then finite (if neg then -(m : Int) else (m : Int)) else inf neg

/-- Round an exact integer number of units to binary32. -/
def ofUnits (z : Int) : F32 := ofQuot (decide (z < 0)) z.natAbs 1

/-- The binary32 nearest to the decimal value `± num / den`: what a correctly
rounding `std::stof` yields for a decimal literal with that value. -/
def ofDecimal (neg : Bool) (num den : Nat) : F32 := ofQuot neg (num * 2 ^ 149) den

/-- Binary32 addition `x + y` (round to nearest, ties to even): the sum of two
`float` operands evaluated in `float` (`FLT_EVAL_METHOD` 0). -/
def add : F32 → F32 → F32
  | nan, _ => nan
  | _, nan => nan
  | inf s, inf t => if s = t then inf s else nan
  | inf s, finite _ => inf s
  | finite _, inf t => inf t
  | finite x, finite y => ofUnits (x + y)

/-- The comparison `x != 1.0`: the float is converted to double exactly and
compared; NaN and the infinities differ from `1.0`. -/
def neOne (x : F32) : Bool := decide (x ≠ one)

/-- The sign test `x < 0`. -/
def isNegative : F32 → Bool
  | finite n => decide (n < 0)
  | inf s => s
  | nan => false

/-- The rational value of a finite binary32; none for NaN and infinities. -/
def toRat : F32 → Option ℚ
  | finite n => some ((n : ℚ) / 2 ^ 149)
  | _ => none

/-- The exact sum of three values, in real arithmetic; none when one of them
is NaN or an infinity. -/
def exactSum (a b c : F32) : Option ℚ :=
  match a.toRat, b.toRat, c.toRat with
  | some u, some v, some w => some (u + v + w)
  | _, _, _ => none

/-- Tolerance comparison: `x` is finite and `|x - 1| ≤ tol`. -/
def withinTolOfOne (tol : ℚ) (x : F32) : Prop :=
  match x.toRat with
  | some v => |v - 1| ≤ tol
  | none => False

end F32

/-! ## Collaborators and observable events -/

/-- A planar segment of the input (`VertexGroup`): the indices of its points. -/
structure VertexGroup where
  points : List Nat
deriving DecidableEq, Repr

/-- A loaded point set, as far as main inspects it: its list of groups. -/
structure PointSet where
  groups : List VertexGroup
deriving DecidableEq, Repr

/-- A mesh (`Map`), as far as main inspects it: its number of facets. -/
structure Map where
  size_of_facets : Nat
deriving DecidableEq, Repr

/-- Modelled from the spec: the answer of the external solver inside
`FaceSelection::optimize` (spec 4.5, 6: an assignment, `Infeasible` or
`Timeout`). Neither `optimize` nor the solver is part of main.cpp. -/
inductive SolverReport where
  | assignment
  | Infeasible
  | Timeout
deriving DecidableEq, Repr

/-- What a call of `FaceSelection::optimize` leaves behind: the report of the
solver it consulted and the mesh it modified in place. The call itself is a
statement in main: no value of it reaches main. -/
structure OptimizeResult where
  solver : SolverReport
  mesh : Map
deriving DecidableEq, Repr

/-- The three globals `Method::lambda_*` main assigns. -/
inductive Lambda where
  | lambda_data_fitting
  | lambda_model_coverage
  | lambda_model_complexity
deriving DecidableEq, Repr

/-- The observable steps of a run of main, in program order. A call carries
its arguments and, where main uses it, the value it returned. -/
inductive Event where
  | cout (text : String)
  | cerr (text : String)
  | Logger_initialize
  | FileLogger (fileName : String)
  | assign (global : Lambda) (value : F32)
  | PointSetIO_read (file : String) (ret : Option PointSet)
  | groups (ret : List VertexGroup)
  | HypothesisGenerator (pset : PointSet)
  | refine_planes
  | generate (ret : Option Map)
  | compute_confidences (mesh : Map) (flag : Bool)
  | extract_adjacency (mesh : Map)
  | FaceSelection (pset : PointSet) (mesh : Map)
  | optimize (ret : OptimizeResult)
  | size_of_facets (ret : Nat)
  | delete_pset
  | MapIO_save (file : String) (mesh : Map) (ret : Bool)
deriving DecidableEq, Repr

/-- The two values main returns. -/
inductive ExitCode where
  | EXIT_SUCCESS
  | EXIT_FAILURE
deriving DecidableEq, Repr

/-- How a run ends: main returns a code, or `std::stof` throws
(`std::invalid_argument`, `std::out_of_range`) and, main having no handler,
the program is terminated without main returning. -/
inductive Outcome where
  | returned (code : ExitCode)
  | uncaught_exception
deriving DecidableEq, Repr

/-- A run of main: what it did and how it ended. -/
structure Run where
  trace : List Event
  exit : Outcome
deriving DecidableEq, Repr

/-- The collaborators of main. Their code is not in main.cpp, so each is a
parameter: any function may stand for it.

* `stof s` is `std::stof(s)`: `none` when it throws.
* `read f` is `PointSetIO::read(f)`: `none` for a null pointer.
* `generate pset` is the mesh `hypothesis.generate()` returns after
  `refine_planes()` on a generator built over `pset`: `none` for null.
* `optimize w1 w2 w3 pset mesh` is the effect of
  `selector.optimize(adjacency, LinearProgramSolver::SCIP)` on the mesh main
  obtained from `generate` (after `compute_confidences` and
  `extract_adjacency`), under the three global weights.
* `save f mesh` is `MapIO::save(f, mesh)`. -/
structure Env where
  stof : String → Option F32
  read : String → Option PointSet
  generate : PointSet → Option Map
  optimize : F32 → F32 → F32 → PointSet → Map → OptimizeResult
  save : String → Map → Bool

/-! ## The driver -/

/-- The condition of the weight check:
`data_fitting + model_coverage + model_complexity != 1.0`, the sum computed
in `float`, left to right. -/
def weightSumNeOne (data_fitting model_coverage model_complexity : F32) : Bool :=
  ((data_fitting.add model_coverage).add model_complexity).neOne

/-- The function `main(argc, argv)`; `argv` lists the `argc` argument strings,
the program name first. -/
def main (env : Env) (argv : List String) : Run :=
  let argc : Int := argv.length
  if argc < 6 then
    ⟨[.cout ("To few arguments. Needed 5, got " ++ toString (argc - 1) ++ ".")],
      .returned .EXIT_FAILURE⟩
  else if argc > 6 then
    ⟨[.cout ("To many arguments. Needed 5, got " ++ toString (argc - 1) ++ ".")],
      .returned .EXIT_FAILURE⟩
  else
    match env.stof (argv.getD 1 "") with
    | none => ⟨[], .uncaught_exception⟩
    | some data_fitting =>
    match env.stof (argv.getD 2 "") with
    | none => ⟨[], .uncaught_exception⟩
    | some model_coverage =>
    match env.stof (argv.getD 3 "") with
    | none => ⟨[], .uncaught_exception⟩
    | some model_complexity =>
    if weightSumNeOne data_fitting model_coverage model_complexity then
      ⟨[.cout "Arguments should sum up to 1."], .returned .EXIT_FAILURE⟩
    else
      let input_file := argv.getD 4 ""
      let output_file := argv.getD 5 ""
      let t1 : List Event :=
        [ Event.Logger_initialize, .FileLogger "/../data/log.txt",
         .assign .lambda_data_fitting data_fitting,
         .assign .lambda_model_coverage model_coverage,
         .assign .lambda_model_complexity model_complexity,
         .PointSetIO_read input_file (env.read input_file)]
      match env.read input_file with
      | none =>
        ⟨t1 ++ [.cerr ("failed loading point cloud from file: " ++ input_file)],
          .returned .EXIT_FAILURE⟩
      | some pset =>
      let t2 := t1 ++ [.cout "refining planes...", .groups pset.groups]
      if pset.groups.isEmpty then
        ⟨t2 ++ [.cerr "planar segments do not exist"], .returned .EXIT_FAILURE⟩
      else
        let t3 := t2 ++ [.HypothesisGenerator pset, .refine_planes,
          .cout "generating plane hypothesis...", .generate (env.generate pset)]
        match env.generate pset with
        | none =>
          ⟨t3 ++ [.cerr ("failed generating candidate faces. Please check if " ++
              "the input point cloud has good planar segments")],
            .returned .EXIT_FAILURE⟩
        | some mesh =>
        let r := env.optimize data_fitting model_coverage model_complexity pset mesh
        let t4 := t3 ++ [.compute_confidences mesh false, .cout "optimization...",
          .extract_adjacency mesh, .FaceSelection pset mesh, .optimize r,
          .size_of_facets r.mesh.size_of_facets]
        if r.mesh.size_of_facets = 0 then
          ⟨t4 ++ [.cerr "optimization failed: model has on faces"], .returned .EXIT_FAILURE⟩
        else
          let t5 := t4 ++ [.delete_pset, .MapIO_save output_file r.mesh (env.save output_file r.mesh)]
          if env.save output_file r.mesh then
            ⟨t5 ++ [.cout ("reconstructed model saved to file: " ++ output_file)],
              .returned .EXIT_SUCCESS⟩
          else
            ⟨t5 ++ [.cerr ("failed saving reconstructed model to file: " ++ output_file)],
              .returned .EXIT_FAILURE⟩

/-! ## Stages -/

/-- The seven collaborator calls that make up the pipeline. -/
inductive Stage where
  | PointSetIO_read
  | refine_planes
  | generate
  | compute_confidences
  | extract_adjacency
  | optimize
  | MapIO_save
deriving DecidableEq, Repr

/-- The pipeline stage an event is a call of, if any. Output, the logger,
the assignments of the globals, the accessors `groups()` and
`size_of_facets()`, the two constructors and `delete` are not stages. -/
def Event.stage : Event → Option Stage
  | .PointSetIO_read _ _ => some .PointSetIO_read
  | .refine_planes => some .refine_planes
  | .generate _ => some .generate
  | .compute_confidences _ _ => some .compute_confidences
  | .extract_adjacency _ => some .extract_adjacency
  | .optimize _ => some .optimize
  | .MapIO_save _ _ _ => some .MapIO_save
  | _ => none

/-- The stage calls of a trace, in order. -/
def stageCalls (trace : List Event) : List Stage := trace.filterMap Event.stage

/-- The pipeline order. -/
def pipeline : List Stage :=
  [.PointSetIO_read, .refine_planes, .generate, .compute_confidences,
   .extract_adjacency, .optimize, .MapIO_save]

/-! ## Scenario worlds

Concrete collaborators for the scenarios of the specification. -/

/-- A `std::stof` that rounds correctly on the decimal literals of the
scenarios and throws on every other string. -/
def stofLiterals : String → Option F32
  | "0.43" => some (F32.ofDecimal false 43 100)
  | "0.27" => some (F32.ofDecimal false 27 100)
  | "0.30" => some (F32.ofDecimal false 30 100)
  | "0.5" => some (F32.ofDecimal false 5 10)
  | "0.0001" => some (F32.ofDecimal false 1 10000)
  | "2" => some (F32.ofDecimal false 2 1)
  | "-0.5" => some (F32.ofDecimal true 5 10)
  | "0.13" => some (F32.ofDecimal false 13 100)
  | "0.42" => some (F32.ofDecimal false 42 100)
  | "0.45" => some (F32.ofDecimal false 45 100)
  | "16777216" => some (F32.ofDecimal false 16777216 1)
  | "1" => some (F32.ofDecimal false 1 1)
  | "-16777215" => some (F32.ofDecimal true 16777215 1)
  | _ => none

/-- Scenario A: a point set segmented into the six faces of a cube. -/
def cube : PointSet := ⟨[⟨[0]⟩, ⟨[1]⟩, ⟨[2]⟩, ⟨[3]⟩, ⟨[4]⟩, ⟨[5]⟩]⟩

/-- Scenario A: the cube loads, the arrangement has 54 candidate faces, the
solver selects six of them and the mesh is written. -/
def cubeWorld : Env where
  stof := stofLiterals
  read := fun _ => some cube
  generate := fun _ => some ⟨54⟩
  optimize := fun _ _ _ _ _ => ⟨.assignment, ⟨6⟩⟩
  save := fun _ _ => true

/-- A point set without planar segments. -/
def noSegmentsWorld : Env := { cubeWorld with read := fun _ => some ⟨[]⟩ }

/-- Scenario B: one planar group only, no candidate face is generated. -/
def singlePlaneWorld : Env :=
  { cubeWorld with read := fun _ => some ⟨[⟨[0, 1, 2]⟩]⟩, generate := fun _ => none }

/-- The solver answers with an assignment that selects no face. -/
def emptyResultWorld : Env :=
  { cubeWorld with optimize := fun _ _ _ _ _ => ⟨.assignment, ⟨0⟩⟩ }

/-- The solver reports `Infeasible` and `optimize` leaves the candidate mesh
as it was. -/
def infeasibleWorld : Env :=
  { cubeWorld with optimize := fun _ _ _ _ mesh => ⟨.Infeasible, mesh⟩ }

/-- The solver times out and `optimize` leaves a mesh without facets. -/
def timeoutWorld : Env :=
  { cubeWorld with optimize := fun _ _ _ _ _ => ⟨.Timeout, ⟨0⟩⟩ }

/-- The command line of Scenario A. -/
def cubeArgs : List String :=
  ["FaceReconstruction", "0.43", "0.27", "0.30", "cube.vg", "cube.obj"]

/-- The texts a trace writes to `std::cerr`, in order. -/
def cerrTexts (trace : List Event) : List String :=
  trace.filterMap fun e => match e with
    | .cerr text => some text
    | _ => none

/-! ## Supporting lemmas -/

/-- The literal `0.1` converts to `0x3DCCCCCD`, that is `13421773 * 2^-27`. -/
theorem F32.ofDecimal_one_tenth :
    F32.ofDecimal false 1 10 = F32.finite (13421773 * 2 ^ 122) := by decide

/-- The literal `0.43` converts to `0x3EDC28F6`, that is `14428406 * 2^-25`. -/
theorem F32.ofDecimal_forty_three_hundredths :
    F32.ofDecimal false 43 100 = F32.finite (14428406 * 2 ^ 124) := by decide

/-- The literal `1e-45` converts to the smallest subnormal. -/
theorem F32.ofDecimal_smallest_subnormal :
    F32.ofDecimal false 1 (10 ^ 45) = F32.finite 1 := by decide

/-- Ties go to the even significand: `1 + 2^-24` is `1`, and
`(1 + 2^-23) + 2^-24` is `1 + 2^-22`. -/
theorem F32.add_ties_to_even :
    F32.one.add (F32.finite (2 ^ 125)) = F32.one ∧
      (F32.finite (2 ^ 149 + 2 ^ 126)).add (F32.finite (2 ^ 125)) =
        F32.finite (2 ^ 149 + 2 ^ 127) := by decide

/-- The largest finite value added to itself overflows to infinity. -/
theorem F32.add_overflow :
    (F32.finite ((2 ^ 24 - 1) * 2 ^ 253)).add (F32.finite ((2 ^ 24 - 1) * 2 ^ 253)) =
      F32.inf false := by decide

/-- The rounded quotient is within half a unit of the exact quotient. -/
theorem F32.roundNearestEven_error (a d : Nat) (hd : 0 < d) :
    2 * (F32.roundNearestEven a d * d) ≤ 2 * a + d ∧
      2 * a ≤ 2 * (F32.roundNearestEven a d * d) + d := by
  have hdm := Nat.div_add_mod a d
  have hlt := Nat.mod_lt a hd
  have hmul : d * (a / d) = a / d * d := Nat.mul_comm _ _
  unfold F32.roundNearestEven
  dsimp only
  split_ifs
  all_goals try simp only [Nat.add_mul, Nat.one_mul]
  all_goals omega

/-- A positive count of dropped bits `s` means the magnitude is at least
`2^(s+23)`. -/
theorem F32.dropBitsAux_lower (fuel fl : Nat) :
    F32.dropBitsAux fuel fl = 0 ∨ 2 ^ (F32.dropBitsAux fuel fl + 23) ≤ fl := by
  induction fuel generalizing fl with
  | zero => left; rfl
  | succ n ih =>
    unfold F32.dropBitsAux
    split_ifs with h
    · left; rfl
    · right
      rcases ih (fl / 2) with h0 | h1
      · rw [h0]
        omega
      · have h2 : 2 ^ (F32.dropBitsAux n (fl / 2) + 23) * 2 ≤ fl :=
          (Nat.le_div_iff_mul_le (by decide)).mp h1
        calc 2 ^ (F32.dropBitsAux n (fl / 2) + 1 + 23)
            = 2 ^ (F32.dropBitsAux n (fl / 2) + 23) * 2 := by
              rw [Nat.add_right_comm, Nat.pow_succ]
          _ ≤ fl := h2

/-- Rounding a magnitude below `2^150` units (the value 2) moves it by at
most `2^125` units (`2^-24`). -/
theorem F32.roundMag_error (a : Nat) (ha : a < 2 ^ 150) :
    F32.roundMag a 1 ≤ a + 2 ^ 125 ∧ a ≤ F32.roundMag a 1 + 2 ^ 125 := by
  unfold F32.roundMag F32.dropBits
  simp only [Nat.div_one, Nat.one_mul]
  have herr := F32.roundNearestEven_error a (2 ^ F32.dropBitsAux a a) (by positivity)
  rcases F32.dropBitsAux_lower a a with h0 | h1
  · rw [h0] at herr ⊢
    simp only [pow_zero, Nat.mul_one] at herr ⊢
    omega
  · have hs : F32.dropBitsAux a a + 23 < 150 :=
      (Nat.pow_lt_pow_iff_right (by decide)).mp (lt_of_le_of_lt h1 ha)
    have hp : 2 ^ F32.dropBitsAux a a ≤ 2 ^ 126 :=
      Nat.pow_le_pow_right (by decide) (by omega)
    omega

/-- Rounding moves a magnitude by at most the fraction `2^-24` of it. -/
theorem F32.roundMag_relative (a : Nat) :
    2 ^ 24 * a ≤ 2 ^ 24 * F32.roundMag a 1 + a := by
  unfold F32.roundMag F32.dropBits
  simp only [Nat.div_one, Nat.one_mul]
  have herr := F32.roundNearestEven_error a (2 ^ F32.dropBitsAux a a) (by positivity)
  rcases F32.dropBitsAux_lower a a with h0 | h1
  · rw [h0] at herr ⊢
    simp only [pow_zero, Nat.mul_one] at herr ⊢
    omega
  · have hp : 2 ^ (F32.dropBitsAux a a + 23) = 2 ^ F32.dropBitsAux a a * 2 ^ 23 :=
      Nat.pow_add _ _ _
    omega

/-- Rounding a non-negative number of units: the rounded magnitude, or
infinity on overflow. -/
theorem F32.ofUnits_natCast (n : Nat) :
    F32.ofUnits (n : Int) =
      if F32.roundMag n 1 < 2 ^ 128 * 2 ^ 149 then F32.finite (F32.roundMag n 1 : Nat)
      else F32.inf false := by
  have hn : ¬ ((n : Int) < 0) := by omega
  unfold F32.ofUnits F32.ofQuot
  simp only [Int.natAbs_ofNat, hn, decide_False, if_false, Bool.false_eq_true]

/-- When three non-negative finite values add up to one in binary32, their
exact sum is within `2^126` units (`2^-23`) of one. -/
theorem F32.exact_sum_near_one (X Y Z : Nat)
    (h : ((F32.finite X).add (F32.finite Y)).add (F32.finite Z) = F32.one) :
    X + Y + Z ≤ 2 ^ 149 + 2 ^ 126 ∧ 2 ^ 149 ≤ X + Y + Z + 2 ^ 126 := by
  have hXY : ((X : Int) + (Y : Int)) = ((X + Y : Nat) : Int) := by push_cast; rfl
  simp only [F32.add, hXY, F32.ofUnits_natCast] at h
  split_ifs at h with hfin
  · have hmZ : ((F32.roundMag (X + Y) 1 : Nat) : Int) + (Z : Int) =
        ((F32.roundMag (X + Y) 1 + Z : Nat) : Int) := by push_cast; rfl
    simp only [F32.add, hmZ, F32.ofUnits_natCast] at h
    split_ifs at h with hfin2
    · have hW : F32.roundMag (F32.roundMag (X + Y) 1 + Z) 1 = 2 ^ 149 := by
        have h3 := F32.finite.inj h
        exact_mod_cast h3
      have hrelW := F32.roundMag_relative (F32.roundMag (X + Y) 1 + Z)
      rw [hW] at hrelW
      have hWlt : F32.roundMag (X + Y) 1 + Z < 2 ^ 150 := by omega
      have herrW := F32.roundMag_error _ hWlt
      rw [hW] at herrW
      have hrelP := F32.roundMag_relative (X + Y)
      have hPlt : X + Y < 2 ^ 150 := by omega
      have herrP := F32.roundMag_error _ hPlt
      omega
    · simp [F32.one] at h
  · simp [F32.add, F32.one] at h

/-- The rejection message of the weight check is not a "saved" message. -/
theorem sum_message_ne_saved (output : String) :
    "Arguments should sum up to 1." ≠ "reconstructed model saved to file: " ++ output := by
  intro h
  have h2 := congrArg (fun s : String => s.data.head?) h
  simp [String.data_append] at h2

/-- Main returns `EXIT_SUCCESS` exactly on the path through every check. -/
theorem main_EXIT_SUCCESS_iff (env : Env) (argv : List String) :
    (main env argv).exit = .returned .EXIT_SUCCESS ↔
      argv.length = 6 ∧ ∃ a b c pset mesh,
        env.stof (argv.getD 1 "") = some a ∧ env.stof (argv.getD 2 "") = some b ∧
        env.stof (argv.getD 3 "") = some c ∧ weightSumNeOne a b c = false ∧
        env.read (argv.getD 4 "") = some pset ∧ pset.groups ≠ [] ∧
        env.generate pset = some mesh ∧
        (env.optimize a b c pset mesh).mesh.size_of_facets ≠ 0 ∧
        env.save (argv.getD 5 "") (env.optimize a b c pset mesh).mesh = true := by
  unfold main
  dsimp only
  repeat' split
  all_goals simp_all
  all_goals omega

/-- When the three weight arguments convert, main returns one of its two
codes. -/
theorem main_returns_of_weights_convert (env : Env) (argv : List String)
    (h1 : (env.stof (argv.getD 1 "")).isSome) (h2 : (env.stof (argv.getD 2 "")).isSome)
    (h3 : (env.stof (argv.getD 3 "")).isSome) :
    (main env argv).exit = .returned .EXIT_SUCCESS ∨
      (main env argv).exit = .returned .EXIT_FAILURE := by
  revert h1 h2 h3
  unfold main
  dsimp only
  repeat' split
  all_goals simp_all

/-! ## The weight check -/

/-- C1 (code evaluated at the failing input): the decimal weights 0.13, 0.42
and 0.45 add up to one, their single-precision sum is `1 - 2^-24`, which lies
within `2^-24` of one, and main rejects the run with "Arguments should sum up
to 1.": the check is an exact comparison, without tolerance. -/
theorem C1_exact_comparison_rejects_sum_within_tolerance :
    ((F32.ofDecimal false 13 100).add (F32.ofDecimal false 42 100)).add
        (F32.ofDecimal false 45 100) = F32.finite (2 ^ 149 - 2 ^ 125) ∧
      F32.withinTolOfOne (1 / 2 ^ 24) (F32.finite (2 ^ 149 - 2 ^ 125)) ∧
      main cubeWorld ["FaceReconstruction", "0.13", "0.42", "0.45", "cube.vg", "cube.obj"] =
        ⟨[.cout "Arguments should sum up to 1."], .returned .EXIT_FAILURE⟩ := by
  refine ⟨by decide, ?_, by decide⟩
  norm_num [F32.withinTolOfOne, F32.toRat, abs_le]

/-- C2 (counterexample): the weights (16777216, 1, -16777215) have the exact
sum 2, which is not 1 within any small tolerance, yet their single-precision
sum is one (`2^24 + 1` rounds to `2^24`): main accepts them, runs the whole
pipeline and returns `EXIT_SUCCESS`. -/
theorem C2_counterexample_sum_two_accepted :
    F32.exactSum (F32.ofDecimal false 16777216 1) (F32.ofDecimal false 1 1)
        (F32.ofDecimal true 16777215 1) = some 2 ∧
      Event.Logger_initialize ∈
        (main cubeWorld
          ["FaceReconstruction", "16777216", "1", "-16777215", "cube.vg", "cube.obj"]).trace ∧
      stageCalls
        (main cubeWorld
          ["FaceReconstruction", "16777216", "1", "-16777215", "cube.vg", "cube.obj"]).trace =
        pipeline ∧
      (main cubeWorld
        ["FaceReconstruction", "16777216", "1", "-16777215", "cube.vg", "cube.obj"]).exit =
        .returned .EXIT_SUCCESS := by
  have e1 : F32.ofDecimal false 16777216 1 = F32.finite (2 ^ 173) := by decide
  have e2 : F32.ofDecimal false 1 1 = F32.finite (2 ^ 149) := by decide
  have e3 : F32.ofDecimal true 16777215 1 = F32.finite (-(16777215 * 2 ^ 149)) := by decide
  refine ⟨?_, by decide, by decide, by decide⟩
  rw [e1, e2, e3]
  simp only [F32.exactSum, F32.toRat]
  norm_num

/-- C2 (amended): when the three weight arguments convert to finite
non-negative values whose exact sum differs from one by more than a tolerance
`tol ≥ 2^-23`, main returns `EXIT_FAILURE` and its only action is the message
"Arguments should sum up to 1.": the logger is not initialised, no global
weight is assigned, no point set is read, no stage is called and nothing is
saved. -/
theorem C2_nonnegative_sum_outside_tolerance_rejected (env : Env)
    (argv : List String) (a b c : F32) (v tol : ℚ)
    (hargc : argv.length = 6)
    (h1 : env.stof (argv.getD 1 "") = some a)
    (h2 : env.stof (argv.getD 2 "") = some b)
    (h3 : env.stof (argv.getD 3 "") = some c)
    (ha : a.isNegative = false) (hb : b.isNegative = false) (hc : c.isNegative = false)
    (hv : F32.exactSum a b c = some v)
    (htol : 1 / 2 ^ 23 ≤ tol)
    (hsum : tol < |v - 1|) :
    (main env argv).exit = .returned .EXIT_FAILURE ∧
      (main env argv).trace = [.cout "Arguments should sum up to 1."] ∧
      stageCalls (main env argv).trace = [] := by
  have hne : weightSumNeOne a b c = true := by
    by_contra hcon
    have hone : (a.add b).add c = F32.one := by
      simpa [weightSumNeOne, F32.neOne] using hcon
    cases a with
    | finite x =>
      cases b with
      | finite y =>
        cases c with
        | finite z =>
          simp only [F32.isNegative, decide_eq_false_iff_not, not_lt] at ha hb hc
          lift x to Nat using ha
          lift y to Nat using hb
          lift z to Nat using hc
          have hb2 := F32.exact_sum_near_one x y z hone
          simp only [F32.exactSum, F32.toRat, Option.some.injEq] at hv
          have hq1 : ((x : ℚ) + y + z) ≤ 2 ^ 149 + 2 ^ 126 := by exact_mod_cast hb2.1
          have hq2 : (2 : ℚ) ^ 149 ≤ (x : ℚ) + y + z + 2 ^ 126 := by exact_mod_cast hb2.2
          have hpos : (0 : ℚ) < 2 ^ 149 := by positivity
          have key : v - 1 = ((x : ℚ) + y + z - 2 ^ 149) / 2 ^ 149 := by
            rw [← hv]
            push_cast
            field_simp
          have habs : |v - 1| ≤ 1 / 2 ^ 23 := by
            rw [key, abs_le]
            constructor
            · rw [le_div_iff₀ hpos]
              norm_num
              norm_num at hq2
              linarith
            · rw [div_le_iff₀ hpos]
              norm_num
              norm_num at hq1
              linarith
          linarith
        | inf s => simp [F32.exactSum, F32.toRat] at hv
        | nan => simp [F32.exactSum, F32.toRat] at hv
      | inf s => simp [F32.exactSum, F32.toRat] at hv
      | nan => simp [F32.exactSum, F32.toRat] at hv
    | inf s => simp [F32.exactSum, F32.toRat] at hv
    | nan => simp [F32.exactSum, F32.toRat] at hv
  unfold main
  simp only [hargc, h1, h2, h3, hne]
  simp [stageCalls, Event.stage]

/-- Witness of C2 (amended) at the weights of Scenario C, (0.5, 0.5, 0.0001),
whose exact sum is `1 + 13743895 / 2^37`, with the tolerance `10^-6`. -/
theorem C2_witness_scenario_C :
    F32.exactSum (F32.ofDecimal false 5 10) (F32.ofDecimal false 5 10)
        (F32.ofDecimal false 1 10000) = some (1 + 13743895 / 2 ^ 37) ∧
      (main cubeWorld ["FaceReconstruction", "0.5", "0.5", "0.0001", "cube.vg", "cube.obj"]).exit =
        .returned .EXIT_FAILURE ∧
      (main cubeWorld ["FaceReconstruction", "0.5", "0.5", "0.0001", "cube.vg", "cube.obj"]).trace =
        [.cout "Arguments should sum up to 1."] ∧
      stageCalls
        (main cubeWorld ["FaceReconstruction", "0.5", "0.5", "0.0001", "cube.vg", "cube.obj"]).trace =
        [] := by
  have e1 : F32.ofDecimal false 5 10 = F32.finite (2 ^ 148) := by decide
  have e2 : F32.ofDecimal false 1 10000 = F32.finite (13743895 * 2 ^ 112) := by decide
  have hv : F32.exactSum (F32.ofDecimal false 5 10) (F32.ofDecimal false 5 10)
      (F32.ofDecimal false 1 10000) = some (1 + 13743895 / 2 ^ 37) := by
    rw [e1, e2]
    simp only [F32.exactSum, F32.toRat]
    norm_num
  exact ⟨hv, C2_nonnegative_sum_outside_tolerance_rejected cubeWorld
    ["FaceReconstruction", "0.5", "0.5", "0.0001", "cube.vg", "cube.obj"]
    (F32.ofDecimal false 5 10) (F32.ofDecimal false 5 10) (F32.ofDecimal false 1 10000)
    (1 + 13743895 / 2 ^ 37) (1 / 10 ^ 6) (by decide) (by decide) (by decide) (by decide)
    (by decide) (by decide) (by decide) hv (by norm_num) (by norm_num [abs_of_pos])⟩

/-- C3: when the three weight arguments convert to the binary32 values
nearest to 0.43, 0.27 and 0.30, their left-to-right single-precision sum is
exactly one, the condition of the weight check is false, the message
"Arguments should sum up to 1." is not written and the run goes on to read the
point set. -/
theorem C3_scenario_A_weights_pass (env : Env) (prog a1 a2 a3 input output : String)
    (h1 : env.stof a1 = some (F32.ofDecimal false 43 100))
    (h2 : env.stof a2 = some (F32.ofDecimal false 27 100))
    (h3 : env.stof a3 = some (F32.ofDecimal false 30 100)) :
    ((F32.ofDecimal false 43 100).add (F32.ofDecimal false 27 100)).add
        (F32.ofDecimal false 30 100) = F32.one ∧
      weightSumNeOne (F32.ofDecimal false 43 100) (F32.ofDecimal false 27 100)
        (F32.ofDecimal false 30 100) = false ∧
      Event.cout "Arguments should sum up to 1." ∉
        (main env [prog, a1, a2, a3, input, output]).trace ∧
      Event.PointSetIO_read input (env.read input) ∈
        (main env [prog, a1, a2, a3, input, output]).trace := by
  have hs : weightSumNeOne (F32.ofDecimal false 43 100) (F32.ofDecimal false 27 100)
      (F32.ofDecimal false 30 100) = false := by decide
  refine ⟨by decide, hs, ?_, ?_⟩
  all_goals
    unfold main
    simp only [List.length_cons, List.length_nil, List.getD_cons_succ, List.getD_cons_zero,
      h1, h2, h3, hs]
    repeat' split
    all_goals simp_all [sum_message_ne_saved]

/-- Witness of C3: the command line of Scenario A in the cube world. -/
theorem C3_witness_cube :
    ((F32.ofDecimal false 43 100).add (F32.ofDecimal false 27 100)).add
        (F32.ofDecimal false 30 100) = F32.one ∧
      weightSumNeOne (F32.ofDecimal false 43 100) (F32.ofDecimal false 27 100)
        (F32.ofDecimal false 30 100) = false ∧
      Event.cout "Arguments should sum up to 1." ∉
        (main cubeWorld ["FaceReconstruction", "0.43", "0.27", "0.30", "cube.vg", "cube.obj"]).trace ∧
      Event.PointSetIO_read "cube.vg" (cubeWorld.read "cube.vg") ∈
        (main cubeWorld ["FaceReconstruction", "0.43", "0.27", "0.30", "cube.vg", "cube.obj"]).trace :=
  C3_scenario_A_weights_pass cubeWorld "FaceReconstruction" "0.43" "0.27" "0.30" "cube.vg"
    "cube.obj" (by decide) (by decide) (by decide)

/-- C5: when `generate` returns null, main writes its failure message to
`std::cerr`, returns `EXIT_FAILURE`, and the stages it called are exactly
`PointSetIO::read`, `refine_planes` and `generate`: none of
`compute_confidences`, `extract_adjacency`, `optimize` and `MapIO::save` is
called. -/
theorem C5_generate_null_aborts (env : Env) (argv : List String)
    (h : Event.generate none ∈ (main env argv).trace) :
    (main env argv).exit = .returned .EXIT_FAILURE ∧
      cerrTexts (main env argv).trace =
        ["failed generating candidate faces. Please check if the input point cloud has good planar segments"] ∧
      stageCalls (main env argv).trace = [.PointSetIO_read, .refine_planes, .generate] ∧
      ∀ s ∈ stageCalls (main env argv).trace,
        s ≠ .compute_confidences ∧ s ≠ .extract_adjacency ∧ s ≠ .optimize ∧ s ≠ .MapIO_save := by
  revert h
  unfold main
  dsimp only
  repeat' split
  all_goals simp_all [stageCalls, Event.stage, cerrTexts]

/-- Witness of C5: Scenario B, a single planar group. -/
theorem C5_witness_single_plane :
    Event.generate none ∈ (main singlePlaneWorld cubeArgs).trace ∧
      (main singlePlaneWorld cubeArgs).exit = .returned .EXIT_FAILURE ∧
      cerrTexts (main singlePlaneWorld cubeArgs).trace =
        ["failed generating candidate faces. Please check if the input point cloud has good planar segments"] ∧
      stageCalls (main singlePlaneWorld cubeArgs).trace =
        [.PointSetIO_read, .refine_planes, .generate] ∧
      ∀ s ∈ stageCalls (main singlePlaneWorld cubeArgs).trace,
        s ≠ .compute_confidences ∧ s ≠ .extract_adjacency ∧ s ≠ .optimize ∧ s ≠ .MapIO_save :=
  ⟨by decide, C5_generate_null_aborts singlePlaneWorld cubeArgs (by decide)⟩

/-- C6: when `size_of_facets()` is zero after `optimize`, main returns
`EXIT_FAILURE` and `MapIO::save` is not called. -/
theorem C6_zero_facets_not_saved (env : Env) (argv : List String)
    (h : Event.size_of_facets 0 ∈ (main env argv).trace) :
    (main env argv).exit = .returned .EXIT_FAILURE ∧
      (∀ file mesh ret, Event.MapIO_save file mesh ret ∉ (main env argv).trace) ∧
      Stage.MapIO_save ∉ stageCalls (main env argv).trace := by
  revert h
  unfold main
  dsimp only
  repeat' split
  all_goals simp_all [stageCalls, Event.stage]
  all_goals omega

/-- Witness of C6: the solver selects no face. -/
theorem C6_witness_empty_result :
    Event.size_of_facets 0 ∈ (main emptyResultWorld cubeArgs).trace ∧
      (main emptyResultWorld cubeArgs).exit = .returned .EXIT_FAILURE ∧
      (∀ file mesh ret,
        Event.MapIO_save file mesh ret ∉ (main emptyResultWorld cubeArgs).trace) ∧
      Stage.MapIO_save ∉ stageCalls (main emptyResultWorld cubeArgs).trace :=
  ⟨by decide, C6_zero_facets_not_saved emptyResultWorld cubeArgs (by decide)⟩

/-- C7 (counterexample): the solver reports `Infeasible`, the mesh keeps its
54 candidate facets, and main saves that mesh and returns `EXIT_SUCCESS`. -/
theorem C7_counterexample_failed_solve_saved :
    Event.optimize ⟨.Infeasible, ⟨54⟩⟩ ∈ (main infeasibleWorld cubeArgs).trace ∧
      Event.MapIO_save "cube.obj" ⟨54⟩ true ∈ (main infeasibleWorld cubeArgs).trace ∧
      (main infeasibleWorld cubeArgs).exit = .returned .EXIT_SUCCESS := by
  decide

/-- C7 (amended): when the solver reports `Infeasible` or `Timeout`, main does
not see the report and goes by the facet count alone: `MapIO::save` is called
exactly when the mesh holds at least one facet after `optimize`, main returns
`EXIT_FAILURE` when it holds none, and `EXIT_SUCCESS` exactly when it holds
some and the save succeeds. -/
theorem C7_failed_solve_judged_by_facets (env : Env) (argv : List String)
    (r : OptimizeResult) (hr : r.solver = .Infeasible ∨ r.solver = .Timeout)
    (h : Event.optimize r ∈ (main env argv).trace) :
    ((∃ file mesh ret, Event.MapIO_save file mesh ret ∈ (main env argv).trace) ↔
        r.mesh.size_of_facets ≠ 0) ∧
      (r.mesh.size_of_facets = 0 → (main env argv).exit = .returned .EXIT_FAILURE) ∧
      ((main env argv).exit = .returned .EXIT_SUCCESS ↔
        r.mesh.size_of_facets ≠ 0 ∧ env.save (argv.getD 5 "") r.mesh = true) := by
  have _ := hr
  revert h
  unfold main
  dsimp only
  repeat' split
  all_goals simp_all

/-- Witness of C7 (amended): the solver times out and the mesh is left
without facets. -/
theorem C7_witness_timeout :
    Event.optimize ⟨.Timeout, ⟨0⟩⟩ ∈ (main timeoutWorld cubeArgs).trace ∧
      ((∃ file mesh ret, Event.MapIO_save file mesh ret ∈ (main timeoutWorld cubeArgs).trace) ↔
        (⟨.Timeout, ⟨0⟩⟩ : OptimizeResult).mesh.size_of_facets ≠ 0) ∧
      ((⟨.Timeout, ⟨0⟩⟩ : OptimizeResult).mesh.size_of_facets = 0 →
        (main timeoutWorld cubeArgs).exit = .returned .EXIT_FAILURE) ∧
      ((main timeoutWorld cubeArgs).exit = .returned .EXIT_SUCCESS ↔
        (⟨.Timeout, ⟨0⟩⟩ : OptimizeResult).mesh.size_of_facets ≠ 0 ∧
          timeoutWorld.save (cubeArgs.getD 5 "") (⟨.Timeout, ⟨0⟩⟩ : OptimizeResult).mesh = true) :=
  ⟨by decide, C7_failed_solve_judged_by_facets timeoutWorld cubeArgs ⟨.Timeout, ⟨0⟩⟩
    (Or.inr rfl) (by decide)⟩

/-! ## Exit signals -/

/-- C8 (the code on the failing path): with five arguments of which a weight
is one that `std::stof` cannot convert, main does nothing observable and does
not return: the run ends with the uncaught exception, not with
`EXIT_FAILURE`. -/
theorem C8_unconvertible_weight_does_not_return (env : Env) (argv : List String)
    (hargc : argv.length = 6)
    (h : env.stof (argv.getD 1 "") = none ∨ env.stof (argv.getD 2 "") = none ∨
      env.stof (argv.getD 3 "") = none) :
    main env argv = ⟨[], .uncaught_exception⟩ ∧
      (main env argv).exit ≠ .returned .EXIT_FAILURE := by
  have hmain : main env argv = ⟨[], .uncaught_exception⟩ := by
    unfold main
    simp only [hargc]
    repeat' split
    all_goals simp_all
  rw [hmain]
  exact ⟨rfl, by decide⟩

/-- Witness of C8: the failing input, a first weight that is not a number. -/
theorem C8_witness_not_a_number :
    cubeWorld.stof "abc" = none ∧
      main cubeWorld ["FaceReconstruction", "abc", "0.27", "0.30", "cube.vg", "cube.obj"] =
        ⟨[], .uncaught_exception⟩ ∧
      (main cubeWorld ["FaceReconstruction", "abc", "0.27", "0.30", "cube.vg", "cube.obj"]).exit ≠
        .returned .EXIT_FAILURE :=
  ⟨by decide, C8_unconvertible_weight_does_not_return cubeWorld
    ["FaceReconstruction", "abc", "0.27", "0.30", "cube.vg", "cube.obj"] (by decide)
    (Or.inl (by decide))⟩

/-- C9 (counterexample): a run without planar segments, a run without
candidate faces and a run with zero selected faces end with the same exit
signal. -/
theorem C9_counterexample_same_exit_signal :
    Event.groups [] ∈ (main noSegmentsWorld cubeArgs).trace ∧
      Event.generate none ∈ (main singlePlaneWorld cubeArgs).trace ∧
      Event.size_of_facets 0 ∈ (main emptyResultWorld cubeArgs).trace ∧
      (main noSegmentsWorld cubeArgs).exit = (main singlePlaneWorld cubeArgs).exit ∧
      (main singlePlaneWorld cubeArgs).exit = (main emptyResultWorld cubeArgs).exit ∧
      (main noSegmentsWorld cubeArgs).exit = (main emptyResultWorld cubeArgs).exit := by
  decide

/-- C9 (amended): a run that finds no planar segments, a run whose `generate`
returns null and a run with zero facets after `optimize` all return the one
code `EXIT_FAILURE`; the reason is told apart only by the text written to
`std::cerr`, which differs pairwise between the three. -/
theorem C9_failures_differ_only_in_message (e1 e2 e3 : Env) (a1 a2 a3 : List String)
    (h1 : Event.groups [] ∈ (main e1 a1).trace)
    (h2 : Event.generate none ∈ (main e2 a2).trace)
    (h3 : Event.size_of_facets 0 ∈ (main e3 a3).trace) :
    ((main e1 a1).exit = .returned .EXIT_FAILURE ∧
        (main e2 a2).exit = .returned .EXIT_FAILURE ∧
        (main e3 a3).exit = .returned .EXIT_FAILURE) ∧
      (cerrTexts (main e1 a1).trace = ["planar segments do not exist"] ∧
        cerrTexts (main e2 a2).trace =
          ["failed generating candidate faces. Please check if the input point cloud has good planar segments"] ∧
        cerrTexts (main e3 a3).trace = ["optimization failed: model has on faces"]) ∧
      (cerrTexts (main e1 a1).trace ≠ cerrTexts (main e2 a2).trace ∧
        cerrTexts (main e2 a2).trace ≠ cerrTexts (main e3 a3).trace ∧
        cerrTexts (main e1 a1).trace ≠ cerrTexts (main e3 a3).trace) := by
  have k1 : (main e1 a1).exit = .returned .EXIT_FAILURE ∧
      cerrTexts (main e1 a1).trace = ["planar segments do not exist"] := by
    revert h1
    unfold main
    dsimp only
    repeat' split
    all_goals simp_all [cerrTexts]
  have k2 : (main e2 a2).exit = .returned .EXIT_FAILURE ∧
      cerrTexts (main e2 a2).trace =
        ["failed generating candidate faces. Please check if the input point cloud has good planar segments"] := by
    revert h2
    unfold main
    dsimp only
    repeat' split
    all_goals simp_all [cerrTexts]
  have k3 : (main e3 a3).exit = .returned .EXIT_FAILURE ∧
      cerrTexts (main e3 a3).trace = ["optimization failed: model has on faces"] := by
    revert h3
    unfold main
    dsimp only
    repeat' split
    all_goals simp_all [cerrTexts]
    all_goals omega
  refine ⟨⟨k1.1, k2.1, k3.1⟩, ⟨k1.2, k2.2, k3.2⟩, ?_, ?_, ?_⟩
  · rw [k1.2, k2.2]; decide
  · rw [k2.2, k3.2]; decide
  · rw [k1.2, k3.2]; decide

/-- Witness of C9 (amended): the three failing runs of the scenario worlds. -/
theorem C9_witness_three_failures :
    ((main noSegmentsWorld cubeArgs).exit = .returned .EXIT_FAILURE ∧
        (main singlePlaneWorld cubeArgs).exit = .returned .EXIT_FAILURE ∧
        (main emptyResultWorld cubeArgs).exit = .returned .EXIT_FAILURE) ∧
      (cerrTexts (main noSegmentsWorld cubeArgs).trace = ["planar segments do not exist"] ∧
        cerrTexts (main singlePlaneWorld cubeArgs).trace =
          ["failed generating candidate faces. Please check if the input point cloud has good planar segments"] ∧
        cerrTexts (main emptyResultWorld cubeArgs).trace =
          ["optimization failed: model has on faces"]) ∧
      (cerrTexts (main noSegmentsWorld cubeArgs).trace ≠
          cerrTexts (main singlePlaneWorld cubeArgs).trace ∧
        cerrTexts (main singlePlaneWorld cubeArgs).trace ≠
          cerrTexts (main emptyResultWorld cubeArgs).trace ∧
        cerrTexts (main noSegmentsWorld cubeArgs).trace ≠
          cerrTexts (main emptyResultWorld cubeArgs).trace) :=
  C9_failures_differ_only_in_message noSegmentsWorld singlePlaneWorld emptyResultWorld
    cubeArgs cubeArgs cubeArgs (by decide) (by decide) (by decide)

/-! ## Order of the stages -/

/-- The stage calls of a run are a prefix of the pipeline. -/
theorem stageCalls_prefix_pipeline (env : Env) (argv : List String) :
    stageCalls (main env argv).trace <+: pipeline := by
  unfold main
  dsimp only
  repeat' split
  all_goals simp_all [stageCalls, Event.stage, pipeline]

/-- No stage is called twice. -/
theorem stageCalls_nodup (env : Env) (argv : List String) :
    (stageCalls (main env argv).trace).Nodup := by
  unfold main
  dsimp only
  repeat' split
  all_goals simp_all [stageCalls, Event.stage, pipeline]

/-- A successful run made the seven stage calls in order. -/
theorem stageCalls_of_EXIT_SUCCESS (env : Env) (argv : List String) :
    (main env argv).exit = .returned .EXIT_SUCCESS →
      stageCalls (main env argv).trace = pipeline := by
  unfold main
  dsimp only
  repeat' split
  all_goals simp_all [stageCalls, Event.stage, pipeline]

/-- A run that does not pass the argument checks calls no stage. -/
theorem stageCalls_of_arguments_rejected (env : Env) (argv : List String) :
    Event.Logger_initialize ∉ (main env argv).trace →
      stageCalls (main env argv).trace = [] := by
  unfold main
  dsimp only
  repeat' split
  all_goals simp_all [stageCalls, Event.stage, pipeline]

/-- A null point set ends the stage calls after the read. -/
theorem stageCalls_of_read_null (env : Env) (argv : List String) :
    ∀ file, Event.PointSetIO_read file none ∈ (main env argv).trace →
      stageCalls (main env argv).trace = [.PointSetIO_read] := by
  unfold main
  dsimp only
  repeat' split
  all_goals simp_all [stageCalls, Event.stage, pipeline]

/-- An empty group list ends the stage calls after the read. -/
theorem stageCalls_of_groups_empty (env : Env) (argv : List String) :
    Event.groups [] ∈ (main env argv).trace →
      stageCalls (main env argv).trace = [.PointSetIO_read] := by
  unfold main
  dsimp only
  repeat' split
  all_goals simp_all [stageCalls, Event.stage, pipeline]

/-- A null mesh ends the stage calls after `generate`. -/
theorem stageCalls_of_generate_null (env : Env) (argv : List String) :
    Event.generate none ∈ (main env argv).trace →
      stageCalls (main env argv).trace = [.PointSetIO_read, .refine_planes, .generate] := by
  unfold main
  dsimp only
  repeat' split
  all_goals simp_all [stageCalls, Event.stage, pipeline]

/-- A mesh without facets ends the stage calls after `optimize`. -/
theorem stageCalls_of_zero_facets (env : Env) (argv : List String) :
    Event.size_of_facets 0 ∈ (main env argv).trace →
      stageCalls (main env argv).trace =
        [.PointSetIO_read, .refine_planes, .generate, .compute_confidences,
         .extract_adjacency, .optimize] := by
  unfold main
  dsimp only
  repeat' split
  all_goals simp_all [stageCalls, Event.stage, pipeline]
  all_goals omega

/-- The call `refine_planes` is made only with a loaded point set that has groups. -/
theorem refine_planes_only_with_groups (env : Env) (argv : List String) :
    Stage.refine_planes ∈ stageCalls (main env argv).trace →
      ∃ file pset, Event.PointSetIO_read file (some pset) ∈ (main env argv).trace ∧
        Event.groups pset.groups ∈ (main env argv).trace ∧ pset.groups ≠ [] := by
  unfold main
  dsimp only
  repeat' split
  all_goals simp_all [stageCalls, Event.stage, pipeline]
  all_goals exact ⟨_, _, ⟨rfl, rfl⟩, rfl, by assumption⟩

/-- The call `compute_confidences` is made only with a mesh from `generate`. -/
theorem compute_confidences_only_with_mesh (env : Env) (argv : List String) :
    Stage.compute_confidences ∈ stageCalls (main env argv).trace →
      ∃ mesh, Event.generate (some mesh) ∈ (main env argv).trace := by
  unfold main
  dsimp only
  repeat' split
  all_goals simp_all [stageCalls, Event.stage, pipeline]

/-- The call `MapIO::save` is made only with facets left after `optimize`. -/
theorem save_only_with_facets (env : Env) (argv : List String) :
    Stage.MapIO_save ∈ stageCalls (main env argv).trace →
      ∃ n, Event.size_of_facets n ∈ (main env argv).trace ∧ n ≠ 0 := by
  unfold main
  dsimp only
  repeat' split
  all_goals simp_all [stageCalls, Event.stage, pipeline]

/-- C10: on every run the stage calls of main form a prefix of the pipeline
`PointSetIO::read`, `refine_planes`, `generate`, `compute_confidences`,
`extract_adjacency`, `optimize`, `MapIO::save`, no stage is called twice, and
a run that returns `EXIT_SUCCESS` made all seven calls in this order. A later
stage is called only after the earlier ones returned without a failure exit:
a run that does not pass the argument checks calls no stage; a null point set
or an empty group list ends the calls after `read`, a null mesh after
`generate`, a mesh without facets after `optimize`; and `refine_planes` is
called only with a loaded point set that has groups, `compute_confidences`
only with a mesh from `generate`, `MapIO::save` only with facets left. -/
theorem C10_stages_in_sequence (env : Env) (argv : List String) :
    stageCalls (main env argv).trace <+: pipeline ∧
      (stageCalls (main env argv).trace).Nodup ∧
      ((main env argv).exit = .returned .EXIT_SUCCESS →
        stageCalls (main env argv).trace = pipeline) ∧
      (Event.Logger_initialize ∉ (main env argv).trace →
        stageCalls (main env argv).trace = []) ∧
      (∀ file, Event.PointSetIO_read file none ∈ (main env argv).trace →
        stageCalls (main env argv).trace = [.PointSetIO_read]) ∧
      (Event.groups [] ∈ (main env argv).trace →
        stageCalls (main env argv).trace = [.PointSetIO_read]) ∧
      (Event.generate none ∈ (main env argv).trace →
        stageCalls (main env argv).trace = [.PointSetIO_read, .refine_planes, .generate]) ∧
      (Event.size_of_facets 0 ∈ (main env argv).trace →
        stageCalls (main env argv).trace =
          [.PointSetIO_read, .refine_planes, .generate, .compute_confidences,
           .extract_adjacency, .optimize]) ∧
      (Stage.refine_planes ∈ stageCalls (main env argv).trace →
        ∃ file pset, Event.PointSetIO_read file (some pset) ∈ (main env argv).trace ∧
          Event.groups pset.groups ∈ (main env argv).trace ∧ pset.groups ≠ []) ∧
      (Stage.compute_confidences ∈ stageCalls (main env argv).trace →
        ∃ mesh, Event.generate (some mesh) ∈ (main env argv).trace) ∧
      (Stage.MapIO_save ∈ stageCalls (main env argv).trace →
        ∃ n, Event.size_of_facets n ∈ (main env argv).trace ∧ n ≠ 0) :=
  ⟨stageCalls_prefix_pipeline env argv,
    stageCalls_nodup env argv,
    stageCalls_of_EXIT_SUCCESS env argv,
    stageCalls_of_arguments_rejected env argv,
    stageCalls_of_read_null env argv,
    stageCalls_of_groups_empty env argv,
    stageCalls_of_generate_null env argv,
    stageCalls_of_zero_facets env argv,
    refine_planes_only_with_groups env argv,
    compute_confidences_only_with_mesh env argv,
    save_only_with_facets env argv⟩

/-- Witness of C10: the successful run of Scenario A makes the seven calls. -/
theorem C10_witness_cube :
    (main cubeWorld cubeArgs).exit = .returned .EXIT_SUCCESS ∧
      stageCalls (main cubeWorld cubeArgs).trace = pipeline :=
  ⟨by decide, (C10_stages_in_sequence cubeWorld cubeArgs).2.2.1 (by decide)⟩

end PolyFit
